import Mathlib

/-!
# DecimalNumberMatcher

A shallow embedding of `src/examples/decimal-number-matcher.js` and the
properties of its `match` method.

The matcher relies on two collaborators that are not part of the source file:

* `ValidationResult` (module `./validation-result`), the accumulator of
  errors; it is modelled as a list of code/message entries;
* `Decimal` (package `decimal.js`), the decimal-parsing facility.  The
  matcher is embedded over an arbitrary facility (`DecimalFacility`), and
  every general property is proved for all facilities.  The concrete facility
  `DecimalJs.facility` models how decimal.js reads a string (decimal notation
  with an exponent, digit separators, `Infinity`, `NaN`, and the literals of
  base 2, 8 and 16); it is used for the concrete input strings.

JavaScript exceptions are explicit: every method returns in `Except JSError`.
The mutable `result` object is passed in and handed back by each method.  The
methods are embedded twice: as functions of the instance, which is how the
outcome of a call is studied, and as methods that run on an instance they can
read and write (`DecimalNumberMatcher.Stateful`), which is how calls that
follow one another are studied.
-/

/-! ## JavaScript values and exceptions -/

/-- The values `match` receives: an optional string. -/
inductive Value
  | undefined
  | null
  | string (s : String)
  deriving DecidableEq, Repr

/-- JavaScript truthiness, as tested by `if (value)`: `undefined`, `null` and
the empty string are falsy, every other string is truthy. -/
def Value.truthy : Value → Bool
  | .undefined => false
  | .null => false
  | .string s => s != ""

/-- An exception raised by `throw`. -/
structure JSError where
  message : String
  deriving DecidableEq, Repr

/-- JavaScript `a > b` between a digit count and a stored parameter.  A digit
count is a natural number or `NaN` (`none`); an element read from `params` is a
number or `undefined` (`none`).  The comparison is false as soon as one side
is `NaN` or `undefined`. -/
def jsGreater (a : Option Nat) (b : Option Int) : Bool :=
  match a, b with
  | some x, some y => decide (y < (x : Int))
  | _, _ => false

/-! ## ValidationResult -/

/-- One entry of a validation outcome. -/
structure ValidationError where
  code : String
  message : String
  deriving DecidableEq, Repr

/-- Modelled from the spec: the `ValidationResult` collaborator (module
`./validation-result`, required on line 4, is not among the sources).  It is
an accumulator of error entries, kept in the order they were recorded; a fresh
one is empty. -/
structure ValidationResult where
  errors : List ValidationError
  deriving DecidableEq, Repr

/-- The outcome built by `new ValidationResult()`: no errors. -/
def ValidationResult.empty : ValidationResult := ⟨[]⟩

/-- Modelled from the spec: `addInvalidTypeError(code, message)`, the "record
error" operation of `ValidationResult`; it appends one entry. -/
def ValidationResult.addInvalidTypeError (r : ValidationResult) (code message : String) :
    ValidationResult :=
  ⟨r.errors ++ [⟨code, message⟩]⟩

/-- Modelled from the spec: an outcome is valid when it has zero errors. -/
def ValidationResult.isValid (r : ValidationResult) : Bool := r.errors.isEmpty

/-! ## Constants of the module -/

/-- The entry `Errors.invalidDecimal`. -/
def Errors.invalidDecimal : ValidationError :=
  ⟨"doubleNumber.e001", "The value is not a valid decimal number."⟩

/-- The entry `Errors.maxDigits`. -/
def Errors.maxDigits : ValidationError :=
  ⟨"doubleNumber.e002", "The value exceeded maximum number of digits."⟩

/-- The entry `Errors.maxPlaces`. -/
def Errors.maxPlaces : ValidationError :=
  ⟨"doubleNumber.e003", "The value exceeded maximum number of decimal places."⟩

/-- The constant `DefaultMaxDigits`. -/
def DefaultMaxDigits : Int := 11

/-! ## The decimal-parsing facility -/

/-- The part of the `Decimal` class the matcher uses, over a type `D` of
decimal objects.  `construct` is `new Decimal(value)`, which throws on a value
it cannot read; `precision x z` is `x.precision(z)` and `decimalPlaces x` is
`x.decimalPlaces()`, each a natural number or `NaN` (`none`).  The two
counting methods do not throw: `precision` rejects only an argument that is
neither a boolean nor 0 or 1, and the matcher passes `true`. -/
structure DecimalFacility (D : Type) where
  construct : Value → Except JSError D
  precision : D → Bool → Option Nat
  decimalPlaces : D → Option Nat

/-! ## The matcher -/

/-- An instance of the class: the parameters stored by the constructor. -/
structure DecimalNumberMatcher where
  params : List Int
  deriving DecidableEq, Repr

namespace DecimalNumberMatcher

/-- The method `constructor(...params)`: the parameters are stored as given. -/
def constructor (params : List Int) : DecimalNumberMatcher := ⟨params⟩

variable {D : Type}

/-- The method `_validateDecimalNumber`: the decimal object, or `null` and one
`invalidDecimal` error when the constructor of `Decimal` throws. -/
def _validateDecimalNumber (_self : DecimalNumberMatcher) (F : DecimalFacility D)
    (value : Value) (result : ValidationResult) :
    Except JSError (Option D × ValidationResult) :=
  try
    let decimalNumber ← F.construct value
    pure (some decimalNumber, result)
  catch _ =>
    pure (none,
      result.addInvalidTypeError Errors.invalidDecimal.code Errors.invalidDecimal.message)

/-- The method `_validateWithZeroParams`. -/
def _validateWithZeroParams (_self : DecimalNumberMatcher) (numberOfDigits : Option Nat)
    (_value : Value) (result : ValidationResult) : Except JSError ValidationResult :=
  if jsGreater numberOfDigits (some DefaultMaxDigits) then
    pure (result.addInvalidTypeError Errors.maxDigits.code Errors.maxDigits.message)
  else
    pure result

/-- The method `_validateWithOneParam`. -/
def _validateWithOneParam (self : DecimalNumberMatcher) (numberOfDigits : Option Nat)
    (_value : Value) (result : ValidationResult) : Except JSError ValidationResult :=
  if jsGreater numberOfDigits self.params[0]? then
    pure (result.addInvalidTypeError Errors.maxDigits.code Errors.maxDigits.message)
  else
    pure result

/-- The method `_validateWithTwoParams`: the two checks run one after the
other on the same result. -/
def _validateWithTwoParams (self : DecimalNumberMatcher) (F : DecimalFacility D)
    (number : D) (numberOfDigits : Option Nat) (_value : Value) (result : ValidationResult) :
    Except JSError ValidationResult := do
  let result :=
    if jsGreater numberOfDigits self.params[0]? then
      result.addInvalidTypeError Errors.maxDigits.code Errors.maxDigits.message
    else result
  let result :=
    if jsGreater (F.decimalPlaces number) self.params[1]? then
      result.addInvalidTypeError Errors.maxPlaces.code Errors.maxPlaces.message
    else result
  pure result

/-- The method `_performValidation`: the `switch` on the number of parameters;
no case is taken for three parameters or more. -/
def _performValidation (self : DecimalNumberMatcher) (F : DecimalFacility D)
    (numberOfParams : Nat) (number : D) (value : Value) (result : ValidationResult) :
    Except JSError ValidationResult :=
  let numberOfDigits := F.precision number true
  match numberOfParams with
  | 0 => self._validateWithZeroParams numberOfDigits value result
  | 1 => self._validateWithOneParam numberOfDigits value result
  | 2 => self._validateWithTwoParams F number numberOfDigits value result
  | _ => pure result

/-- The method `match`.  A decimal object is always truthy, so `if (number)`
tests that `_validateDecimalNumber` did not return `null`. -/
def matchValue (self : DecimalNumberMatcher) (F : DecimalFacility D) (value : Value) :
    Except JSError ValidationResult := do
  let result := ValidationResult.empty
  if value.truthy then
    let (number, result) ← self._validateDecimalNumber F value result
    let numberOfParams := self.params.length
    match number with
    | some number => self._performValidation F numberOfParams number value result
    | none => pure result
  else
    pure result

/-- The maximum number of digits a matcher is configured with, in the words of
the documentation of the class: 11 without parameters, the first parameter
otherwise. -/
def configuredMaximum (params : List Int) : Int :=
  match params with
  | [] => 11
  | n :: _ => n

/-! ### The methods with the instance as state

The same methods once more, with `this` made explicit: a method runs on an
instance that it can read and write, and hands the instance on to what runs
next.  `this.params` is read from the state at the place where the source reads
it. -/

namespace Stateful

/-- A method of the class run on an instance: it reads and may write the
instance, and may throw. -/
abbrev Method (α : Type) : Type := StateT DecimalNumberMatcher (Except JSError) α

/-- The method `_validateDecimalNumber`, on an instance. -/
def _validateDecimalNumber (F : DecimalFacility D) (value : Value) (result : ValidationResult) :
    Method (Option D × ValidationResult) :=
  try
    let decimalNumber ← (F.construct value : Except JSError D)
    pure (some decimalNumber, result)
  catch _ =>
    pure (none,
      result.addInvalidTypeError Errors.invalidDecimal.code Errors.invalidDecimal.message)

/-- The method `_validateWithZeroParams`, on an instance. -/
def _validateWithZeroParams (numberOfDigits : Option Nat) (_value : Value)
    (result : ValidationResult) : Method ValidationResult :=
  if jsGreater numberOfDigits (some DefaultMaxDigits) then
    pure (result.addInvalidTypeError Errors.maxDigits.code Errors.maxDigits.message)
  else
    pure result

/-- The method `_validateWithOneParam`, on an instance: `this.params[0]` is
read from the instance. -/
def _validateWithOneParam (numberOfDigits : Option Nat) (_value : Value)
    (result : ValidationResult) : Method ValidationResult := do
  let self ← get
  if jsGreater numberOfDigits self.params[0]? then
    pure (result.addInvalidTypeError Errors.maxDigits.code Errors.maxDigits.message)
  else
    pure result

/-- The method `_validateWithTwoParams`, on an instance: `this.params[0]` and
then `this.params[1]` are read from the instance. -/
def _validateWithTwoParams (F : DecimalFacility D) (number : D) (numberOfDigits : Option Nat)
    (_value : Value) (result : ValidationResult) : Method ValidationResult := do
  let self ← get
  let result :=
    if jsGreater numberOfDigits self.params[0]? then
      result.addInvalidTypeError Errors.maxDigits.code Errors.maxDigits.message
    else result
  let self ← get
  let result :=
    if jsGreater (F.decimalPlaces number) self.params[1]? then
      result.addInvalidTypeError Errors.maxPlaces.code Errors.maxPlaces.message
    else result
  pure result

/-- The method `_performValidation`, on an instance. -/
def _performValidation (F : DecimalFacility D) (numberOfParams : Nat) (number : D)
    (value : Value) (result : ValidationResult) : Method ValidationResult :=
  let numberOfDigits := F.precision number true
  match numberOfParams with
  | 0 => _validateWithZeroParams numberOfDigits value result
  | 1 => _validateWithOneParam numberOfDigits value result
  | 2 => _validateWithTwoParams F number numberOfDigits value result
  | _ => pure result

/-- The method `match`, on an instance: `this.params.length` is read from the
instance after `_validateDecimalNumber` has run. -/
def matchValue (F : DecimalFacility D) (value : Value) : Method ValidationResult := do
  let result := ValidationResult.empty
  if value.truthy then
    let (number, result) ← _validateDecimalNumber F value result
    let numberOfParams := (← get).params.length
    match number with
    | some number => _performValidation F numberOfParams number value result
    | none => pure result
  else
    pure result

/-- A run of calls of `match` on one instance, each call on the instance as
the call before it left it: the outcomes, in the order of the calls. -/
def callSequence (F : DecimalFacility D) : List Value → Method (List ValidationResult)
  | [] => pure []
  | value :: values => do
    let result ← matchValue F value
    let results ← callSequence F values
    pure (result :: results)

end Stateful

end DecimalNumberMatcher

/-! ## A model of how decimal.js reads strings -/

namespace DecimalJs

/-- Modelled from the spec: the decimal value built by the parsing facility
(package `decimal.js`, required on line 3, is not among the sources).  A
finite value has a sign `s`, the decimal exponent `e` of its first significant
digit and its significant digits `d`, without leading or trailing zeros (zero
is the single digit 0 with exponent 0); `Infinity` and `NaN` have no digits. -/
inductive Decimal
  | finite (s : Int) (e : Int) (d : List Nat)
  | infinity (s : Int)
  | nan
  deriving DecidableEq, Repr

/-- The default exponent limit `maxE` of decimal.js, 9e15. -/
def maxE : Int := 9000000000000000

/-- The default exponent limit `minE` of decimal.js, -9e15. -/
def minE : Int := -9000000000000000

/-- The value zero with sign `s`. -/
def zero (s : Int) : Decimal := .finite s 0 [0]

/-- The character is `e` or `E`. -/
def isE (c : Char) : Bool := c == 'e' || c == 'E'

/-- The characters match `\d+`. -/
def isDigits (cs : List Char) : Bool := !cs.isEmpty && cs.all Char.isDigit

/-- The characters match `\d+(\.\d*)?|\.\d+`. -/
def isMantissa (cs : List Char) : Bool :=
  let ip := cs.takeWhile Char.isDigit
  match cs.dropWhile Char.isDigit with
  | [] => !ip.isEmpty
  | c :: fp => c == '.' && fp.all Char.isDigit && (!ip.isEmpty || !fp.isEmpty)

/-- The characters match `[+-]?\d+`. -/
def isExponent (cs : List Char) : Bool :=
  match cs with
  | [] => false
  | c :: ds => if c == '+' || c == '-' then isDigits ds else isDigits cs

/-- Modelled from the spec: the test `isDecimal` of decimal.js, the regular
expression `/^(\d+(\.\d*)?|\.\d+)(e[+-]?\d+)?$/i`: digits with at most one
decimal point, and an optional exponent. -/
def isDecimal (cs : List Char) : Bool :=
  let m := cs.takeWhile (fun c => !isE c)
  match cs.dropWhile (fun c => !isE c) with
  | [] => isMantissa m
  | _ :: ex => isMantissa m && isExponent ex

/-- The number written by a run of decimal digits. -/
def digitsToNat (cs : List Char) : Nat :=
  cs.foldl (fun n c => 10 * n + (c.toNat - 48)) 0

/-- The value of an exponent part `[+-]?\d+`. -/
def exponentValue (cs : List Char) : Int :=
  match cs with
  | [] => 0
  | c :: ds =>
    if c == '-' then -(digitsToNat ds : Int)
    else if c == '+' then (digitsToNat ds : Int)
    else (digitsToNat cs : Int)

/-- The digits with the trailing zeros removed. -/
def stripTrailingZeros (cs : List Char) : List Char :=
  (cs.reverse.dropWhile (fun c => c == '0')).reverse

/-- Modelled from the spec: `parseDecimal` of decimal.js, applied to a string
accepted by `isDecimal`.  The decimal point is removed, the exponent part is
added to the position of the point, leading and trailing zeros are dropped;
nothing is rounded.  An exponent above `maxE` gives `Infinity`, one below
`minE` gives zero. -/
def parseDecimal (s : Int) (cs : List Char) : Decimal :=
  let m := cs.takeWhile (fun c => !isE c)
  let exponent : Int :=
    match cs.dropWhile (fun c => !isE c) with
    | [] => 0
    | _ :: ex => exponentValue ex
  let e : Int := ((m.takeWhile (fun c => c != '.')).length : Int) + exponent
  let str := m.filter (fun c => c != '.')
  let i := (str.takeWhile (fun c => c == '0')).length
  let digits := stripTrailingZeros (str.dropWhile (fun c => c == '0'))
  if digits.isEmpty then zero s
  else
    let xe := e - (i : Int) - 1
    if xe > maxE then .infinity s
    else if xe < minE then zero s
    else .finite s xe (digits.map (fun c => c.toNat - 48))

/-- The string with the underscores that separate two digits removed, as
`str.replace(/(\d)_(?=\d)/g, '$1')` does: an underscore goes when the character
before it and the character after it are decimal digits.  `prev` is the
character before the first one of the list. -/
def removeSeparators (prev : Option Char) : List Char → List Char
  | [] => []
  | c :: rest =>
    if c == '_' && prev.any Char.isDigit && rest.head?.any Char.isDigit then
      removeSeparators (some c) rest
    else c :: removeSeparators (some c) rest

/-- The character is `p` or `P`. -/
def isP (c : Char) : Bool := c == 'p' || c == 'P'

/-- The value of a character as a digit: 0 to 9, and 10 to 15 for the letters
`a` to `f` in either case. -/
def digitValue (c : Char) : Option Nat :=
  if c.isDigit then some (c.toNat - 48)
  else if 97 ≤ c.toNat && c.toNat ≤ 102 then some (c.toNat - 87)
  else if 65 ≤ c.toNat && c.toNat ≤ 70 then some (c.toNat - 55)
  else none

/-- The character is a digit of the base (2, 8 or 16). -/
def isDigitOf (base : Nat) (c : Char) : Bool := (digitValue c).any (fun v => v < base)

/-- The characters match `D+(\.D*)?|\.D+`, where `D` is a digit of the
base. -/
def isMantissaOf (base : Nat) (cs : List Char) : Bool :=
  let ip := cs.takeWhile (isDigitOf base)
  match cs.dropWhile (isDigitOf base) with
  | [] => !ip.isEmpty
  | c :: fp => c == '.' && fp.all (isDigitOf base) && (!ip.isEmpty || !fp.isEmpty)

/-- The characters, taken after the two characters that announce the base,
match `(D+(\.D*)?|\.D+)(p[+-]?\d+)?`: digits of the base with at most one
point, and an optional binary exponent. -/
def isLiteralBody (base : Nat) (cs : List Char) : Bool :=
  let m := cs.takeWhile (fun c => !isP c)
  match cs.dropWhile (fun c => !isP c) with
  | [] => isMantissaOf base m
  | _ :: ex => isMantissaOf base m && isExponent ex

/-- Modelled from the spec: the tests `isHex`, `isBinary` and `isOctal` of
decimal.js, in that order: the base announced by `0x`, `0b` or `0o` (in either
case) and the characters after it, when they form a literal of that base. -/
def literalBase (cs : List Char) : Option (Nat × List Char) :=
  match cs with
  | c0 :: c1 :: body =>
    if c0 == '0' then
      if (c1 == 'x' || c1 == 'X') && isLiteralBody 16 body then some (16, body)
      else if (c1 == 'b' || c1 == 'B') && isLiteralBody 2 body then some (2, body)
      else if (c1 == 'o' || c1 == 'O') && isLiteralBody 8 body then some (8, body)
      else none
    else none
  | _ => none

/-- A magnitude `c × 10^q`. -/
structure Magnitude where
  c : Nat
  q : Int
  deriving DecidableEq, Repr

/-- The number of decimal digits of a natural number. -/
def numDigits (c : Nat) : Nat := (Nat.toDigits 10 c).length

/-- The exact product of two magnitudes. -/
def Magnitude.mul (a b : Magnitude) : Magnitude := ⟨a.c * b.c, a.q + b.q⟩

/-- The magnitude rounded to the default precision of decimal.js, 20
significant digits, halves going up (the default rounding mode). -/
def Magnitude.round20 (a : Magnitude) : Magnitude :=
  let n := numDigits a.c
  if n ≤ 20 then a
  else
    let d := n - 20
    ⟨(a.c + 5 * 10 ^ (d - 1)) / 10 ^ d, a.q + (d : Int)⟩

/-- The decimal value of sign `s` and of the given magnitude. -/
def Magnitude.toDecimal (s : Int) (a : Magnitude) : Decimal :=
  if a.c = 0 then zero s
  else
    .finite s ((numDigits a.c : Int) - 1 + a.q)
      ((stripTrailingZeros (Nat.toDigits 10 a.c)).map (fun c => c.toNat - 48))

/-- The digits JavaScript prints for the numbers 2^(-24) to 2^(-53), the
shortest that read back as the same number, each with the decimal exponent of
its last digit.  From 2^(-24) on they are not the exact value. -/
def printedNegativePowers : List Magnitude :=
  [⟨5960464477539063, -23⟩, ⟨29802322387695312, -24⟩, ⟨14901161193847656, -24⟩,
   ⟨7450580596923828, -24⟩, ⟨3725290298461914, -24⟩, ⟨1862645149230957, -24⟩,
   ⟨9313225746154785, -25⟩, ⟨4656612873077393, -25⟩, ⟨23283064365386963, -26⟩,
   ⟨11641532182693481, -26⟩, ⟨5820766091346741, -26⟩, ⟨29103830456733704, -27⟩,
   ⟨14551915228366852, -27⟩, ⟨7275957614183426, -27⟩, ⟨3637978807091713, -27⟩,
   ⟨18189894035458565, -28⟩, ⟨9094947017729282, -28⟩, ⟨4547473508864641, -28⟩,
   ⟨22737367544323206, -29⟩, ⟨11368683772161603, -29⟩, ⟨5684341886080802, -29⟩,
   ⟨2842170943040401, -29⟩, ⟨14210854715202004, -30⟩, ⟨7105427357601002, -30⟩,
   ⟨3552713678800501, -30⟩, ⟨17763568394002505, -31⟩, ⟨8881784197001252, -31⟩,
   ⟨4440892098500626, -31⟩, ⟨2220446049250313, -31⟩, ⟨11102230246251565, -32⟩]

/-- The decimal value decimal.js makes of the JavaScript number `2^p`, for
`0 < |p| < 54`: the number as JavaScript prints it, which is the exact value
down to 2^(-23). -/
def printedPowerOfTwo (p : Int) : Magnitude :=
  if 0 ≤ p then ⟨2 ^ p.toNat, 0⟩
  else if -24 < p then ⟨5 ^ (-p).toNat, p⟩
  else printedNegativePowers.getD ((-p).toNat - 24) ⟨0, 0⟩

/-- Modelled from the spec: the step `x.times(...)` of `parseOther` for a
binary exponent `p`.  Below 54 in absolute value, the product with the printed
number `2^p` is exact.  From 54 on, decimal.js raises 2 to the power with
`Decimal.pow`, which rounds to 20 digits, and rounds the product to 20 digits;
what `Decimal.pow` cuts off before it rounds, and its other algorithm for
exponents above 2^53, are left out. -/
def scaleByPowerOfTwo (x : Magnitude) (p : Int) : Magnitude :=
  if p = 0 then x
  else if p.natAbs < 54 then x.mul (printedPowerOfTwo p)
  else if 0 < p then (x.mul (Magnitude.round20 ⟨2 ^ p.toNat, 0⟩)).round20
  else (x.mul (Magnitude.round20 ⟨5 ^ (-p).toNat, p⟩)).round20

/-- Modelled from the spec: the conversion of `parseOther` for a literal of
base 2, 8 or 16 accepted by `literalBase`: the digits are read as an integer
of that base, divided by the base once for each digit after the point (an exact
division), and multiplied by the binary exponent. -/
def parseLiteral (s : Int) (base : Nat) (body : List Char) : Decimal :=
  let m := body.takeWhile (fun c => !isP c)
  let p : Int :=
    match body.dropWhile (fun c => !isP c) with
    | [] => 0
    | _ :: ex => exponentValue ex
  let ip := m.takeWhile (fun c => c != '.')
  let fp := (m.dropWhile (fun c => c != '.')).drop 1
  let n := (ip ++ fp).foldl (fun acc c => base * acc + (digitValue c).getD 0) 0
  let bits := if base = 16 then 4 else if base = 8 then 3 else 1
  let x : Magnitude := ⟨n * 5 ^ (bits * fp.length), -((bits * fp.length : Nat) : Int)⟩
  if n = 0 then zero s else (scaleByPowerOfTwo x p).toDecimal s

/-- The end of `parseOther`: a literal of base 2, 8 or 16, or an invalid
argument. -/
def parseLiteralOrThrow (s : Int) (cs : List Char) : Except JSError Decimal :=
  match literalBase cs with
  | some (base, body) => .ok (parseLiteral s base body)
  | none => .error ⟨"[DecimalError] Invalid argument: " ++ String.mk cs⟩

/-- Modelled from the spec: `parseOther` of decimal.js.  A string with an
underscore has its digit separators removed and is read again as a decimal;
without an underscore, the names `Infinity` and `NaN` are read as such.  What
is left is read as a literal of base 16, 2 or 8, and is an invalid argument
otherwise. -/
def parseOther (s : Int) (str : String) : Except JSError Decimal :=
  if str.toList.contains '_' then
    let cs := removeSeparators none str.toList
    if isDecimal cs then .ok (parseDecimal s cs) else parseLiteralOrThrow s cs
  else if str = "Infinity" then .ok (.infinity s)
  else if str = "NaN" then .ok .nan
  else parseLiteralOrThrow s str.toList

/-- Modelled from the spec: `new Decimal(v)` of decimal.js for a string: a
leading `-` or `+` is the sign, the rest is read by `parseDecimal` when it
passes `isDecimal` and by `parseOther` otherwise. -/
def ofString (v : String) : Except JSError Decimal :=
  let (s, cs) : Int × List Char :=
    match v.toList with
    | [] => (1, [])
    | c :: cs => if c == '-' then (-1, cs) else if c == '+' then (1, cs) else (1, c :: cs)
  if isDecimal cs then .ok (parseDecimal s cs) else parseOther s (String.mk cs)

/-- Modelled from the spec: `new Decimal(value)`; `undefined` and `null` are
invalid arguments. -/
def construct : Value → Except JSError Decimal
  | .string v => ofString v
  | .undefined => .error ⟨"[DecimalError] Invalid argument: undefined"⟩
  | .null => .error ⟨"[DecimalError] Invalid argument: null"⟩

/-- Modelled from the spec: `x.precision(z)` of decimal.js: the number of
significant digits, and with `z` true the zeros that end the integer part are
counted as well; `NaN` for a value without digits. -/
def precision (x : Decimal) (z : Bool) : Option Nat :=
  match x with
  | .finite _ e d =>
    let k := d.length
    if z && e + 1 > (k : Int) then some (e + 1).toNat else some k
  | _ => none

/-- Modelled from the spec: `x.decimalPlaces()` of decimal.js: the number of
digits after the decimal point; `NaN` for a value without digits. -/
def decimalPlaces (x : Decimal) : Option Nat :=
  match x with
  | .finite _ e d => some ((d.length : Int) - e - 1).toNat
  | _ => none

/-- The facility made of the three operations above. -/
def facility : DecimalFacility Decimal := ⟨construct, precision, decimalPlaces⟩

end DecimalJs

/-! ## How `match` runs -/

namespace DecimalNumberMatcher

variable {D : Type}

/-- When the constructor of `Decimal` returns, `_validateDecimalNumber` hands
the decimal object back and leaves the result as it was. -/
theorem validateDecimalNumber_of_ok (self : DecimalNumberMatcher) (F : DecimalFacility D)
    (value : Value) (result : ValidationResult) (x : D) (h : F.construct value = .ok x) :
    self._validateDecimalNumber F value result = .ok (some x, result) := by
  unfold _validateDecimalNumber
  rw [h]
  rfl

/-- When the constructor of `Decimal` throws, `_validateDecimalNumber` catches
the exception, records `invalidDecimal` and hands `null` back. -/
theorem validateDecimalNumber_of_error (self : DecimalNumberMatcher) (F : DecimalFacility D)
    (value : Value) (result : ValidationResult) (e : JSError)
    (h : F.construct value = .error e) :
    self._validateDecimalNumber F value result =
      .ok (none, ⟨result.errors ++ [Errors.invalidDecimal]⟩) := by
  unfold _validateDecimalNumber
  rw [h]
  rfl

/-- On a falsy value `match` returns the fresh result. -/
theorem matchValue_of_falsy (self : DecimalNumberMatcher) (F : DecimalFacility D)
    (value : Value) (h : value.truthy = false) :
    self.matchValue F value = .ok ⟨[]⟩ := by
  unfold matchValue
  simp only [h]
  rfl

/-- On a truthy value that `Decimal` rejects, `match` returns the single error
`invalidDecimal`. -/
theorem matchValue_of_error (self : DecimalNumberMatcher) (F : DecimalFacility D)
    (value : Value) (e : JSError) (hv : value.truthy = true)
    (h : F.construct value = .error e) :
    self.matchValue F value = .ok ⟨[Errors.invalidDecimal]⟩ := by
  unfold matchValue
  simp only [hv, validateDecimalNumber_of_error self F value _ e h]
  rfl

/-- On a truthy value that `Decimal` reads, `match` returns what
`_performValidation` makes of the fresh result. -/
theorem matchValue_of_ok (self : DecimalNumberMatcher) (F : DecimalFacility D)
    (value : Value) (x : D) (hv : value.truthy = true) (h : F.construct value = .ok x) :
    self.matchValue F value =
      self._performValidation F self.params.length x value ⟨[]⟩ := by
  unfold matchValue
  simp only [hv, validateDecimalNumber_of_ok self F value _ x h]
  rfl

/-- The outcome of `_validateWithTwoParams` on a fresh result, with stored
parameters `p0` and `p1`. -/
theorem validateWithTwoParams_fresh (F : DecimalFacility D) (p0 p1 : Int) (x : D)
    (n : Option Nat) (value : Value) :
    _validateWithTwoParams ⟨[p0, p1]⟩ F x n value ⟨[]⟩ =
      .ok ⟨(if jsGreater n (some p0) then [Errors.maxDigits] else []) ++
        (if jsGreater (F.decimalPlaces x) (some p1) then [Errors.maxPlaces] else [])⟩ := by
  unfold _validateWithTwoParams
  by_cases h0 : jsGreater n (some p0) = true <;>
    by_cases h1 : jsGreater (F.decimalPlaces x) (some p1) = true <;>
    simp [h0, h1, ValidationResult.addInvalidTypeError, Errors.maxDigits, Errors.maxPlaces, pure,
      Except.pure]

/-- The outcome of `_validateWithOneParam` on a fresh result, with stored
parameter `p0`. -/
theorem validateWithOneParam_fresh (p0 : Int) (n : Option Nat) (value : Value) :
    _validateWithOneParam ⟨[p0]⟩ n value ⟨[]⟩ =
      .ok ⟨if jsGreater n (some p0) then [Errors.maxDigits] else []⟩ := by
  unfold _validateWithOneParam
  by_cases h0 : jsGreater n (some p0) = true <;>
    simp [h0, ValidationResult.addInvalidTypeError, Errors.maxDigits, pure, Except.pure]

/-- The outcome of `_validateWithZeroParams` on a fresh result. -/
theorem validateWithZeroParams_fresh (self : DecimalNumberMatcher) (n : Option Nat)
    (value : Value) :
    _validateWithZeroParams self n value ⟨[]⟩ =
      .ok ⟨if jsGreater n (some DefaultMaxDigits) then [Errors.maxDigits] else []⟩ := by
  unfold _validateWithZeroParams
  by_cases h0 : jsGreater n (some DefaultMaxDigits) = true <;>
    simp [h0, ValidationResult.addInvalidTypeError, Errors.maxDigits, pure, Except.pure]

/-- The comparison `jsGreater` between two numbers is the order of the integers. -/
theorem jsGreater_some (d : Nat) (p : Int) : jsGreater (some d) (some p) = decide (p < (d : Int)) :=
  rfl

end DecimalNumberMatcher

/-! ## Properties of `match` -/

open DecimalNumberMatcher

/-- C1: for every decimal facility, every matcher configuration and every
falsy value (`undefined`, `null`, the empty string), `match` returns an outcome
with zero errors. -/
theorem match_falsy_is_valid {D : Type} (F : DecimalFacility D) (self : DecimalNumberMatcher)
    (value : Value) (h : value = .undefined ∨ value = .null ∨ value = .string "") :
    ∃ r, self.matchValue F value = .ok r ∧ r.errors.length = 0 ∧ r.isValid = true := by
  refine ⟨⟨[]⟩, matchValue_of_falsy self F value ?_, rfl, rfl⟩
  rcases h with h | h | h <;> subst h <;> rfl

/-- Witness of C1: a matcher with the parameters (5, 2) on `undefined`, on
`null` and on the empty string. -/
theorem match_falsy_is_valid_witness :
    (∃ r, matchValue (constructor [5, 2]) DecimalJs.facility .undefined = .ok r ∧
      r.errors.length = 0 ∧ r.isValid = true) ∧
    (∃ r, matchValue (constructor []) DecimalJs.facility .null = .ok r ∧
      r.errors.length = 0 ∧ r.isValid = true) ∧
    (∃ r, matchValue (constructor [1, 2, 3]) DecimalJs.facility (.string "") = .ok r ∧
      r.errors.length = 0 ∧ r.isValid = true) :=
  ⟨match_falsy_is_valid _ _ _ (Or.inl rfl),
   match_falsy_is_valid _ _ _ (Or.inr (Or.inl rfl)),
   match_falsy_is_valid _ _ _ (Or.inr (Or.inr rfl))⟩

/-- C2: for every decimal facility, every matcher configuration and every
truthy value on which `new Decimal(value)` throws, `match` returns exactly one
error, with code `doubleNumber.e001` and message "The value is not a valid
decimal number."; no digit-count error is recorded.  This is the case of the
strings "abc", "1.2.3" and "12a" under decimal.js. -/
theorem match_parse_failure :
    (∀ (D : Type) (F : DecimalFacility D) (self : DecimalNumberMatcher) (value : Value)
        (e : JSError), value.truthy = true → F.construct value = .error e →
        self.matchValue F value =
          .ok ⟨[⟨"doubleNumber.e001", "The value is not a valid decimal number."⟩]⟩) ∧
    (∀ self : DecimalNumberMatcher, ∀ s ∈ ["abc", "1.2.3", "12a"],
        self.matchValue DecimalJs.facility (.string s) =
          .ok ⟨[⟨"doubleNumber.e001", "The value is not a valid decimal number."⟩]⟩) := by
  refine ⟨fun D F self value e hv he => matchValue_of_error self F value e hv he, ?_⟩
  intro self s hs
  simp only [List.mem_cons, List.mem_singleton, List.not_mem_nil, or_false] at hs
  rcases hs with h | h | h <;> subst h
  · exact matchValue_of_error self _ _ ⟨"[DecimalError] Invalid argument: abc"⟩ (by decide) rfl
  · exact matchValue_of_error self _ _ ⟨"[DecimalError] Invalid argument: 1.2.3"⟩ (by decide) rfl
  · exact matchValue_of_error self _ _ ⟨"[DecimalError] Invalid argument: 12a"⟩ (by decide) rfl

/-- Witness of C2: the string "12a" is truthy, decimal.js throws on it, and a
matcher with the parameters (5, 2) returns the single error e001. -/
theorem match_parse_failure_witness :
    Value.truthy (.string "12a") = true ∧
    DecimalJs.facility.construct (.string "12a") =
      .error ⟨"[DecimalError] Invalid argument: 12a"⟩ ∧
    matchValue (constructor [5, 2]) DecimalJs.facility (.string "12a") =
      .ok ⟨[⟨"doubleNumber.e001", "The value is not a valid decimal number."⟩]⟩ :=
  ⟨by decide, rfl,
   match_parse_failure.1 _ DecimalJs.facility (constructor [5, 2]) (.string "12a")
     ⟨"[DecimalError] Invalid argument: 12a"⟩ (by decide) rfl⟩

/-- C3: for a matcher with the two parameters (p0, p1) and a truthy value that
`Decimal` reads with `d` digits in total and `k` decimal places, the outcome
of `match` is the e002 error exactly when `d > p0`, followed by the e003 error
exactly when `k > p1`; so it is valid exactly when `d ≤ p0` and `k ≤ p1`.
With (5, 2) under decimal.js, "123.45" is valid and "12.345" yields the single
error e003. -/
theorem match_two_params :
    (∀ (D : Type) (F : DecimalFacility D) (p0 p1 : Int) (value : Value) (x : D) (d k : Nat),
        value.truthy = true → F.construct value = .ok x →
        F.precision x true = some d → F.decimalPlaces x = some k →
        matchValue (constructor [p0, p1]) F value =
            .ok ⟨(if p0 < (d : Int) then [Errors.maxDigits] else []) ++
              (if p1 < (k : Int) then [Errors.maxPlaces] else [])⟩ ∧
          ∃ r, matchValue (constructor [p0, p1]) F value = .ok r ∧
            (r.isValid = true ↔ (d : Int) ≤ p0 ∧ (k : Int) ≤ p1)) ∧
    matchValue (constructor [5, 2]) DecimalJs.facility (.string "123.45") = .ok ⟨[]⟩ ∧
    matchValue (constructor [5, 2]) DecimalJs.facility (.string "12.345") =
      .ok ⟨[⟨"doubleNumber.e003", "The value exceeded maximum number of decimal places."⟩]⟩ := by
  have key : ∀ (D : Type) (F : DecimalFacility D) (p0 p1 : Int) (value : Value) (x : D)
      (d k : Nat), value.truthy = true → F.construct value = .ok x →
      F.precision x true = some d → F.decimalPlaces x = some k →
      matchValue (constructor [p0, p1]) F value =
        .ok ⟨(if p0 < (d : Int) then [Errors.maxDigits] else []) ++
          (if p1 < (k : Int) then [Errors.maxPlaces] else [])⟩ := by
    intro D F p0 p1 value x d k hv hx hd hk
    rw [matchValue_of_ok _ F value x hv hx]
    show _validateWithTwoParams ⟨[p0, p1]⟩ F x (F.precision x true) value ⟨[]⟩ = _
    rw [validateWithTwoParams_fresh, hd, hk]
    simp [jsGreater_some]
  refine ⟨fun D F p0 p1 value x d k hv hx hd hk => ⟨key D F p0 p1 value x d k hv hx hd hk,
    _, key D F p0 p1 value x d k hv hx hd hk, ?_⟩, rfl, rfl⟩
  by_cases h0 : p0 < (d : Int)
  all_goals by_cases h1 : p1 < (k : Int)
  all_goals simp [h0, h1, ValidationResult.isValid]
  all_goals omega

/-- Witness of C3: with (5, 2) under decimal.js, "123456.789" is read with 9
digits and 3 decimal places, and `match` returns e002 followed by e003. -/
theorem match_two_params_witness :
    Value.truthy (.string "123456.789") = true ∧
    DecimalJs.facility.construct (.string "123456.789") =
      .ok (.finite 1 5 [1, 2, 3, 4, 5, 6, 7, 8, 9]) ∧
    DecimalJs.facility.precision (.finite 1 5 [1, 2, 3, 4, 5, 6, 7, 8, 9]) true = some 9 ∧
    DecimalJs.facility.decimalPlaces (.finite 1 5 [1, 2, 3, 4, 5, 6, 7, 8, 9]) = some 3 ∧
    matchValue (constructor [5, 2]) DecimalJs.facility (.string "123456.789") =
      .ok ⟨[Errors.maxDigits, Errors.maxPlaces]⟩ :=
  ⟨by decide, rfl, rfl, rfl,
   (match_two_params.1 _ DecimalJs.facility 5 2 (.string "123456.789")
     (.finite 1 5 [1, 2, 3, 4, 5, 6, 7, 8, 9]) 9 3 (by decide) rfl rfl rfl).1⟩

/-- C4: for a matcher with zero parameters and a truthy value that `Decimal`
reads with `d` digits in total, the outcome of `match` is the single error
e002 when `d > 11` and is empty otherwise.  Under decimal.js "12345678901" (11
digits) is valid and "123456789012" (12 digits) yields the single error
e002. -/
theorem match_zero_params :
    (∀ (D : Type) (F : DecimalFacility D) (value : Value) (x : D) (d : Nat),
        value.truthy = true → F.construct value = .ok x → F.precision x true = some d →
        matchValue (constructor []) F value =
          .ok ⟨if 11 < d then [Errors.maxDigits] else []⟩) ∧
    matchValue (constructor []) DecimalJs.facility (.string "12345678901") = .ok ⟨[]⟩ ∧
    matchValue (constructor []) DecimalJs.facility (.string "123456789012") =
      .ok ⟨[⟨"doubleNumber.e002", "The value exceeded maximum number of digits."⟩]⟩ := by
  refine ⟨?_, rfl, rfl⟩
  intro D F value x d hv hx hd
  rw [matchValue_of_ok _ F value x hv hx]
  show _validateWithZeroParams ⟨[]⟩ (F.precision x true) value ⟨[]⟩ = _
  rw [validateWithZeroParams_fresh, hd]
  simp [jsGreater_some, DefaultMaxDigits]

/-- Witness of C4: under decimal.js "1234567890.12" is read with 12 digits, and
a matcher with no parameters returns the single error e002. -/
theorem match_zero_params_witness :
    Value.truthy (.string "1234567890.12") = true ∧
    DecimalJs.facility.construct (.string "1234567890.12") =
      .ok (.finite 1 9 [1, 2, 3, 4, 5, 6, 7, 8, 9, 0, 1, 2]) ∧
    DecimalJs.facility.precision (.finite 1 9 [1, 2, 3, 4, 5, 6, 7, 8, 9, 0, 1, 2]) true =
      some 12 ∧
    matchValue (constructor []) DecimalJs.facility (.string "1234567890.12") =
      .ok ⟨[Errors.maxDigits]⟩ :=
  ⟨by decide, rfl, rfl,
   match_zero_params.1 _ DecimalJs.facility (.string "1234567890.12")
     (.finite 1 9 [1, 2, 3, 4, 5, 6, 7, 8, 9, 0, 1, 2]) 12 (by decide) rfl rfl⟩

/-- C5: for a matcher with the single parameter `n` and a truthy value that
`Decimal` reads with `d` digits in total, the outcome of `match` is the single
error e002 when `d > n` and is empty otherwise.  With `n = 5` under decimal.js
"12345" is valid and "123456" yields the single error e002. -/
theorem match_one_param :
    (∀ (D : Type) (F : DecimalFacility D) (n : Int) (value : Value) (x : D) (d : Nat),
        value.truthy = true → F.construct value = .ok x → F.precision x true = some d →
        matchValue (constructor [n]) F value =
          .ok ⟨if n < (d : Int) then [Errors.maxDigits] else []⟩) ∧
    matchValue (constructor [5]) DecimalJs.facility (.string "12345") = .ok ⟨[]⟩ ∧
    matchValue (constructor [5]) DecimalJs.facility (.string "123456") =
      .ok ⟨[⟨"doubleNumber.e002", "The value exceeded maximum number of digits."⟩]⟩ := by
  refine ⟨?_, rfl, rfl⟩
  intro D F n value x d hv hx hd
  rw [matchValue_of_ok _ F value x hv hx]
  show _validateWithOneParam ⟨[n]⟩ (F.precision x true) value ⟨[]⟩ = _
  rw [validateWithOneParam_fresh, hd]
  simp [jsGreater_some]

/-- Witness of C5: under decimal.js "-0.5" is read with one digit, and a
matcher with the single parameter 0 returns the single error e002. -/
theorem match_one_param_witness :
    Value.truthy (.string "-0.5") = true ∧
    DecimalJs.facility.construct (.string "-0.5") = .ok (.finite (-1) (-1) [5]) ∧
    DecimalJs.facility.precision (.finite (-1) (-1) [5]) true = some 1 ∧
    matchValue (constructor [0]) DecimalJs.facility (.string "-0.5") =
      .ok ⟨[Errors.maxDigits]⟩ :=
  ⟨by decide, by rfl, by rfl,
   match_one_param.1 _ DecimalJs.facility 0 (.string "-0.5") (.finite (-1) (-1) [5]) 1
     (by decide) (by rfl) (by rfl)⟩

/-- C6 as stated fails: with the parameters (5, 2), the outcome of `match` on
"1234.5" is not a single error with code `doubleNumber.e002`. -/
theorem match_1234_5_is_not_one_error :
    ¬ ∃ r e, matchValue (constructor [5, 2]) DecimalJs.facility (.string "1234.5") = .ok r ∧
      r.errors = [e] ∧ e.code = "doubleNumber.e002" := by
  rintro ⟨r, e, hr, he, -⟩
  have h : matchValue (constructor [5, 2]) DecimalJs.facility (.string "1234.5") = .ok ⟨[]⟩ := rfl
  rw [h] at hr
  injection hr with hr
  subst hr
  simp at he

/-- C6, amended: with the parameters (5, 2), decimal.js reads "1234.5" with 5
digits in total and 1 decimal place, neither above its limit, and `match`
returns a valid outcome, without any error. -/
theorem match_1234_5_is_valid :
    DecimalJs.facility.construct (.string "1234.5") = .ok (.finite 1 3 [1, 2, 3, 4, 5]) ∧
    DecimalJs.facility.precision (.finite 1 3 [1, 2, 3, 4, 5]) true = some 5 ∧
    DecimalJs.facility.decimalPlaces (.finite 1 3 [1, 2, 3, 4, 5]) = some 1 ∧
    matchValue (constructor [5, 2]) DecimalJs.facility (.string "1234.5") = .ok ⟨[]⟩ :=
  ⟨rfl, rfl, rfl, rfl⟩

/-- C7 as stated fails: with the parameters (5, 2), the outcome of `match` on
"123456.78" does not hold both an error with code `doubleNumber.e002` and an
error with code `doubleNumber.e003`. -/
theorem match_123456_78_has_not_both_errors :
    ¬ ∃ r, matchValue (constructor [5, 2]) DecimalJs.facility (.string "123456.78") = .ok r ∧
      (∃ e ∈ r.errors, e.code = "doubleNumber.e002") ∧
      (∃ e ∈ r.errors, e.code = "doubleNumber.e003") := by
  rintro ⟨r, hr, -, e, he, hc⟩
  have h : matchValue (constructor [5, 2]) DecimalJs.facility (.string "123456.78") =
      .ok ⟨[Errors.maxDigits]⟩ := rfl
  rw [h] at hr
  injection hr with hr
  subst hr
  simp only [List.mem_singleton] at he
  subst he
  revert hc
  decide

/-- C7, amended: with the parameters (5, 2), decimal.js reads "123456.78" with
8 digits in total and 2 decimal places; `match` returns exactly one error,
`doubleNumber.e002`, and no `doubleNumber.e003` error, since 2 decimal places
do not exceed 2. -/
theorem match_123456_78_is_one_error :
    DecimalJs.facility.construct (.string "123456.78") =
      .ok (.finite 1 5 [1, 2, 3, 4, 5, 6, 7, 8]) ∧
    DecimalJs.facility.precision (.finite 1 5 [1, 2, 3, 4, 5, 6, 7, 8]) true = some 8 ∧
    DecimalJs.facility.decimalPlaces (.finite 1 5 [1, 2, 3, 4, 5, 6, 7, 8]) = some 2 ∧
    matchValue (constructor [5, 2]) DecimalJs.facility (.string "123456.78") =
      .ok ⟨[⟨"doubleNumber.e002", "The value exceeded maximum number of digits."⟩]⟩ :=
  ⟨rfl, rfl, rfl, rfl⟩

/-- C8: for a matcher with zero, one or two parameters and a truthy value that
`Decimal` reads with `d` digits in total, `match` records an error with code
`doubleNumber.e002` exactly when `d` is strictly greater than the configured
maximum (11 with zero parameters, the first parameter otherwise); with `d`
equal to the maximum no such error is recorded. -/
theorem match_digits_at_maximum {D : Type} (F : DecimalFacility D)
    (self : DecimalNumberMatcher) (value : Value) (x : D) (d : Nat)
    (hp : self.params.length ≤ 2) (hv : value.truthy = true) (hx : F.construct value = .ok x)
    (hd : F.precision x true = some d) :
    ∃ r, self.matchValue F value = .ok r ∧
      ((∃ e ∈ r.errors, e.code = "doubleNumber.e002") ↔ configuredMaximum self.params < d) ∧
      ((d : Int) = configuredMaximum self.params →
        ∀ e ∈ r.errors, e.code ≠ "doubleNumber.e002") := by
  have aux : ∀ r : ValidationResult,
      ((∃ e ∈ r.errors, e.code = "doubleNumber.e002") ↔ configuredMaximum self.params < d) →
      ((d : Int) = configuredMaximum self.params →
        ∀ e ∈ r.errors, e.code ≠ "doubleNumber.e002") := by
    intro r hr heq e he hc
    have := hr.1 ⟨e, he, hc⟩
    omega
  rw [matchValue_of_ok self F value x hv hx]
  obtain ⟨params⟩ := self
  match params, hp with
  | [], _ =>
    have h1 : _performValidation ⟨[]⟩ F 0 x value ⟨[]⟩ =
        .ok ⟨if jsGreater (some d) (some DefaultMaxDigits) then [Errors.maxDigits] else []⟩ := by
      show _validateWithZeroParams ⟨[]⟩ (F.precision x true) value ⟨[]⟩ = _
      rw [validateWithZeroParams_fresh, hd]
    refine ⟨_, h1, ?_, aux _ ?_⟩
    all_goals by_cases h : (11 : Int) < d
    all_goals simp [jsGreater_some, DefaultMaxDigits, configuredMaximum, h, Errors.maxDigits]
  | [p0], _ =>
    have h1 : _performValidation ⟨[p0]⟩ F 1 x value ⟨[]⟩ =
        .ok ⟨if jsGreater (some d) (some p0) then [Errors.maxDigits] else []⟩ := by
      show _validateWithOneParam ⟨[p0]⟩ (F.precision x true) value ⟨[]⟩ = _
      rw [validateWithOneParam_fresh, hd]
    refine ⟨_, h1, ?_, aux _ ?_⟩
    all_goals by_cases h : p0 < d
    all_goals simp [jsGreater_some, configuredMaximum, h, Errors.maxDigits]
  | [p0, p1], _ =>
    have h1 : _performValidation ⟨[p0, p1]⟩ F 2 x value ⟨[]⟩ =
        .ok ⟨(if jsGreater (some d) (some p0) then [Errors.maxDigits] else []) ++
          (if jsGreater (F.decimalPlaces x) (some p1) then [Errors.maxPlaces] else [])⟩ := by
      show _validateWithTwoParams ⟨[p0, p1]⟩ F x (F.precision x true) value ⟨[]⟩ = _
      rw [validateWithTwoParams_fresh, hd]
    refine ⟨_, h1, ?_, aux _ ?_⟩
    all_goals by_cases h : p0 < d
    all_goals by_cases h2 : jsGreater (F.decimalPlaces x) (some p1) = true
    all_goals
      simp [jsGreater_some, configuredMaximum, h, h2, Errors.maxDigits, Errors.maxPlaces]
  | _ :: _ :: _ :: _, hp => simp at hp

/-- Witness of C8: with (5, 2) under decimal.js, "123.45" is read with 5
digits, the configured maximum, and the outcome holds no e002 error. -/
theorem match_digits_at_maximum_witness :
    (constructor [5, 2]).params.length ≤ 2 ∧
    Value.truthy (.string "123.45") = true ∧
    DecimalJs.facility.construct (.string "123.45") = .ok (.finite 1 2 [1, 2, 3, 4, 5]) ∧
    DecimalJs.facility.precision (.finite 1 2 [1, 2, 3, 4, 5]) true = some 5 ∧
    ∃ r, matchValue (constructor [5, 2]) DecimalJs.facility (.string "123.45") = .ok r ∧
      ((∃ e ∈ r.errors, e.code = "doubleNumber.e002") ↔
        configuredMaximum (constructor [5, 2]).params < 5) ∧
      (((5 : Nat) : Int) = configuredMaximum (constructor [5, 2]).params →
        ∀ e ∈ r.errors, e.code ≠ "doubleNumber.e002") :=
  ⟨by decide, by decide, rfl, rfl,
   match_digits_at_maximum DecimalJs.facility (constructor [5, 2]) (.string "123.45")
     (.finite 1 2 [1, 2, 3, 4, 5]) 5 (by decide) (by decide) rfl rfl⟩

/-- Whatever the number of parameters, the decimal object and the result so
far, `_performValidation` returns a result: none of its branches throws. -/
theorem performValidation_returns {D : Type} (F : DecimalFacility D)
    (self : DecimalNumberMatcher) (numberOfParams : Nat) (number : D) (value : Value)
    (result : ValidationResult) :
    ∃ r, self._performValidation F numberOfParams number value result = .ok r := by
  unfold _performValidation
  match numberOfParams with
  | 0 =>
    show ∃ r, _validateWithZeroParams self (F.precision number true) value result = .ok r
    unfold _validateWithZeroParams
    split <;> exact ⟨_, rfl⟩
  | 1 =>
    show ∃ r, _validateWithOneParam self (F.precision number true) value result = .ok r
    unfold _validateWithOneParam
    split <;> exact ⟨_, rfl⟩
  | 2 =>
    exact ⟨_, rfl⟩
  | _ + 3 =>
    exact ⟨_, rfl⟩

/-- C9: `match` is total on strings: for every decimal facility, every matcher
configuration and every string, `match` returns an outcome and does not
throw.  When `new Decimal(value)` throws on a truthy string, the exception is
caught and the outcome is the recorded error e001; and the digit-count checks
of `_performValidation` return for every decimal object. -/
theorem match_total_on_strings {D : Type} (F : DecimalFacility D)
    (self : DecimalNumberMatcher) (s : String) :
    (∃ r, self.matchValue F (.string s) = .ok r) ∧
    (∀ e, Value.truthy (.string s) = true → F.construct (.string s) = .error e →
      self.matchValue F (.string s) = .ok ⟨[Errors.invalidDecimal]⟩) ∧
    (∀ (n : Nat) (x : D) (result : ValidationResult),
      ∃ r, self._performValidation F n x (.string s) result = .ok r) := by
  refine ⟨?_, fun e hv he => matchValue_of_error self F _ e hv he,
    fun n x result => performValidation_returns F self n x _ result⟩
  cases hv : Value.truthy (.string s) with
  | false => exact ⟨_, matchValue_of_falsy self F _ hv⟩
  | true =>
    cases hx : F.construct (.string s) with
    | error e => exact ⟨_, matchValue_of_error self F _ e hv hx⟩
    | ok x =>
      rw [matchValue_of_ok self F _ x hv hx]
      exact performValidation_returns F self _ x _ _

/-- Witness of C9: under decimal.js the truthy string "1.2.3" makes
`new Decimal` throw, and a matcher with the parameters (5, 2) returns the
outcome with the single error e001. -/
theorem match_total_on_strings_witness :
    Value.truthy (.string "1.2.3") = true ∧
    DecimalJs.facility.construct (.string "1.2.3") =
      .error ⟨"[DecimalError] Invalid argument: 1.2.3"⟩ ∧
    matchValue (constructor [5, 2]) DecimalJs.facility (.string "1.2.3") =
      .ok ⟨[Errors.invalidDecimal]⟩ :=
  ⟨by decide, rfl,
   (match_total_on_strings DecimalJs.facility (constructor [5, 2]) "1.2.3").2.1
     ⟨"[DecimalError] Invalid argument: 1.2.3"⟩ (by decide) rfl⟩

/-- C10: for a matcher with three parameters or more and a truthy value that
`Decimal` reads, `_performValidation` takes no branch of its `switch` and
`match` returns an outcome with zero errors, whatever digit counts the decimal
facility reports and whatever the parameters are. -/
theorem match_three_or_more_params {D : Type} (F : DecimalFacility D)
    (self : DecimalNumberMatcher) (value : Value) (x : D)
    (hp : 3 ≤ self.params.length) (hv : value.truthy = true)
    (hx : F.construct value = .ok x) :
    self._performValidation F self.params.length x value ⟨[]⟩ = .ok ⟨[]⟩ ∧
    self.matchValue F value = .ok ⟨[]⟩ := by
  have h : self._performValidation F self.params.length x value ⟨[]⟩ = .ok ⟨[]⟩ := by
    obtain ⟨n, hn⟩ : ∃ n, self.params.length = n + 3 := ⟨self.params.length - 3, by omega⟩
    rw [hn]
    rfl
  exact ⟨h, by rw [matchValue_of_ok self F value x hv hx, h]⟩

/-- Witness of C10: under decimal.js "123456.789" is read (9 digits, 3 decimal
places), and a matcher with the parameters (5, 2, 1) returns a valid
outcome. -/
theorem match_three_or_more_params_witness :
    3 ≤ (constructor [5, 2, 1]).params.length ∧
    Value.truthy (.string "123456.789") = true ∧
    DecimalJs.facility.construct (.string "123456.789") =
      .ok (.finite 1 5 [1, 2, 3, 4, 5, 6, 7, 8, 9]) ∧
    matchValue (constructor [5, 2, 1]) DecimalJs.facility (.string "123456.789") = .ok ⟨[]⟩ :=
  ⟨by decide, by decide, rfl,
   (match_three_or_more_params DecimalJs.facility (constructor [5, 2, 1])
     (.string "123456.789") (.finite 1 5 [1, 2, 3, 4, 5, 6, 7, 8, 9])
     (by decide) (by decide) rfl).2⟩

/-- Whatever the value, `match` returns an outcome. -/
theorem matchValue_returns {D : Type} (F : DecimalFacility D) (self : DecimalNumberMatcher)
    (value : Value) : ∃ r, self.matchValue F value = .ok r := by
  cases hv : value.truthy with
  | false => exact ⟨_, matchValue_of_falsy self F _ hv⟩
  | true =>
    cases hx : F.construct value with
    | error e => exact ⟨_, matchValue_of_error self F _ e hv hx⟩
    | ok x =>
      rw [matchValue_of_ok self F _ x hv hx]
      exact performValidation_returns F self _ x _ _

/-- C11: for every decimal facility and every value, a matcher constructed
without parameters and a matcher constructed with the single parameter 11
return the same outcome from `match`: the same errors, with the same codes and
messages, in the same order. -/
theorem match_default_is_eleven {D : Type} (F : DecimalFacility D) (value : Value) :
    matchValue (constructor []) F value = matchValue (constructor [11]) F value := by
  cases hv : value.truthy with
  | false => rw [matchValue_of_falsy _ F _ hv, matchValue_of_falsy _ F _ hv]
  | true =>
    cases hx : F.construct value with
    | error e => rw [matchValue_of_error _ F _ e hv hx, matchValue_of_error _ F _ e hv hx]
    | ok x =>
      rw [matchValue_of_ok _ F _ x hv hx, matchValue_of_ok _ F _ x hv hx]
      rfl

/-- On a truthy value that `Decimal` reads, the outcome of `match` is, by
number of parameters: the e002 check against 11, the e002 check against the
first parameter, both checks, or nothing. -/
theorem matchValue_of_ok_cases {D : Type} (F : DecimalFacility D) (self : DecimalNumberMatcher)
    (value : Value) (x : D) (hv : value.truthy = true) (hx : F.construct value = .ok x) :
    (self.params = [] ∧ self.matchValue F value =
      .ok ⟨if jsGreater (F.precision x true) (some 11) then [Errors.maxDigits] else []⟩) ∨
    (∃ p0, self.params = [p0] ∧ self.matchValue F value =
      .ok ⟨if jsGreater (F.precision x true) (some p0) then [Errors.maxDigits] else []⟩) ∨
    (∃ p0 p1, self.params = [p0, p1] ∧ self.matchValue F value =
      .ok ⟨(if jsGreater (F.precision x true) (some p0) then [Errors.maxDigits] else []) ++
        (if jsGreater (F.decimalPlaces x) (some p1) then [Errors.maxPlaces] else [])⟩) ∨
    (3 ≤ self.params.length ∧ self.matchValue F value = .ok ⟨[]⟩) := by
  rw [matchValue_of_ok self F value x hv hx]
  obtain ⟨params⟩ := self
  match params with
  | [] =>
    exact Or.inl ⟨rfl, validateWithZeroParams_fresh ⟨[]⟩ (F.precision x true) value⟩
  | [p0] =>
    exact Or.inr (Or.inl ⟨p0, rfl, validateWithOneParam_fresh p0 (F.precision x true) value⟩)
  | [p0, p1] =>
    exact Or.inr (Or.inr (Or.inl
      ⟨p0, p1, rfl, validateWithTwoParams_fresh F p0 p1 x (F.precision x true) value⟩))
  | _ :: _ :: _ :: _ => exact Or.inr (Or.inr (Or.inr ⟨by simp, rfl⟩))

/-! ## Values that are read without being decimal numbers -/

/-- C12, at the failing input: under decimal.js the truthy strings "NaN" and
"Infinity" hold letters and are no decimal numbers, yet `new Decimal` reads
them, as values without digits; a matcher without parameters returns a valid
outcome for them, and so records no `doubleNumber.e001` error. -/
theorem match_nan_records_no_e001 :
    (Value.truthy (.string "NaN") = true ∧ (∃ c ∈ "NaN".toList, c.isAlpha = true) ∧
      DecimalJs.facility.construct (.string "NaN") = .ok .nan ∧
      DecimalJs.facility.precision .nan true = none ∧
      matchValue (constructor []) DecimalJs.facility (.string "NaN") = .ok ⟨[]⟩ ∧
      ¬ ∃ r, matchValue (constructor []) DecimalJs.facility (.string "NaN") = .ok r ∧
        ∃ e ∈ r.errors, e.code = "doubleNumber.e001") ∧
    (Value.truthy (.string "Infinity") = true ∧
      (∃ c ∈ "Infinity".toList, c.isAlpha = true) ∧
      DecimalJs.facility.construct (.string "Infinity") = .ok (.infinity 1) ∧
      DecimalJs.facility.precision (.infinity 1) true = none ∧
      matchValue (constructor []) DecimalJs.facility (.string "Infinity") = .ok ⟨[]⟩ ∧
      ¬ ∃ r, matchValue (constructor []) DecimalJs.facility (.string "Infinity") = .ok r ∧
        ∃ e ∈ r.errors, e.code = "doubleNumber.e001") := by
  refine ⟨⟨by decide, ⟨'N', by decide, by decide⟩, rfl, rfl, rfl, ?_⟩,
    ⟨by decide, ⟨'I', by decide, by decide⟩, rfl, rfl, rfl, ?_⟩⟩
  · rintro ⟨r, hr, e, he, -⟩
    have h : matchValue (constructor []) DecimalJs.facility (.string "NaN") = .ok ⟨[]⟩ := rfl
    rw [h] at hr
    injection hr with hr
    subst hr
    simp at he
  · rintro ⟨r, hr, e, he, -⟩
    have h : matchValue (constructor []) DecimalJs.facility (.string "Infinity") =
        .ok ⟨[]⟩ := rfl
    rw [h] at hr
    injection hr with hr
    subst hr
    simp at he

/-- C13, at the failing inputs: under decimal.js the truthy strings "NaN" and
"Infinity" are read by `new Decimal`, and the matchers with the parameters (0)
and (-1, 2), whose maximum number of digits is not positive, return a valid
outcome for them, without the `doubleNumber.e002` error. -/
theorem match_nonfinite_under_nonpositive_maximum :
    (Value.truthy (.string "NaN") = true ∧
      DecimalJs.facility.construct (.string "NaN") = .ok .nan ∧
      matchValue (constructor [0]) DecimalJs.facility (.string "NaN") = .ok ⟨[]⟩ ∧
      ¬ ∃ r, matchValue (constructor [0]) DecimalJs.facility (.string "NaN") = .ok r ∧
        ∃ e ∈ r.errors, e.code = "doubleNumber.e002") ∧
    (Value.truthy (.string "Infinity") = true ∧
      DecimalJs.facility.construct (.string "Infinity") = .ok (.infinity 1) ∧
      matchValue (constructor [-1, 2]) DecimalJs.facility (.string "Infinity") = .ok ⟨[]⟩ ∧
      ¬ ∃ r, matchValue (constructor [-1, 2]) DecimalJs.facility (.string "Infinity") = .ok r ∧
        ∃ e ∈ r.errors, e.code = "doubleNumber.e002") := by
  refine ⟨⟨by decide, rfl, rfl, ?_⟩, ⟨by decide, rfl, rfl, ?_⟩⟩
  · rintro ⟨r, hr, e, he, -⟩
    have h : matchValue (constructor [0]) DecimalJs.facility (.string "NaN") = .ok ⟨[]⟩ := rfl
    rw [h] at hr
    injection hr with hr
    subst hr
    simp at he
  · rintro ⟨r, hr, e, he, -⟩
    have h : matchValue (constructor [-1, 2]) DecimalJs.facility (.string "Infinity") =
        .ok ⟨[]⟩ := rfl
    rw [h] at hr
    injection hr with hr
    subst hr
    simp at he

/-! ## Runs of calls and the shape of outcomes -/

/-- On an instance, `_validateDecimalNumber` leaves the instance as it was. -/
theorem Stateful.validateDecimalNumber_run {D : Type} (F : DecimalFacility D)
    (self : DecimalNumberMatcher) (value : Value) (result : ValidationResult) :
    (Stateful._validateDecimalNumber F value result).run self =
      (self._validateDecimalNumber F value result).map (fun r => (r, self)) := by
  unfold Stateful._validateDecimalNumber DecimalNumberMatcher._validateDecimalNumber
  cases hx : F.construct value <;> rfl

/-- On an instance, `_performValidation` returns what it returns as a function
of the stored parameters, and leaves the instance as it was. -/
theorem Stateful.performValidation_run {D : Type} (F : DecimalFacility D)
    (self : DecimalNumberMatcher) (numberOfParams : Nat) (number : D) (value : Value)
    (result : ValidationResult) :
    (Stateful._performValidation F numberOfParams number value result).run self =
      (self._performValidation F numberOfParams number value result).map
        (fun r => (r, self)) := by
  unfold Stateful._performValidation DecimalNumberMatcher._performValidation
  match numberOfParams with
  | 0 =>
    show (Stateful._validateWithZeroParams _ value result).run self =
      (self._validateWithZeroParams _ value result).map _
    unfold Stateful._validateWithZeroParams DecimalNumberMatcher._validateWithZeroParams
    split <;> rfl
  | 1 =>
    show (Stateful._validateWithOneParam _ value result).run self =
      (self._validateWithOneParam _ value result).map _
    unfold Stateful._validateWithOneParam DecimalNumberMatcher._validateWithOneParam
    by_cases h : jsGreater (F.precision number true) self.params[0]? = true
    · simp only [StateT.run_bind, StateT.run_get, pure_bind, h, if_true, StateT.run_pure]
      rfl
    · simp only [StateT.run_bind, StateT.run_get, pure_bind, h, if_false, StateT.run_pure]
      rfl
  | 2 =>
    show (Stateful._validateWithTwoParams F number _ value result).run self =
      (self._validateWithTwoParams F number _ value result).map _
    unfold Stateful._validateWithTwoParams DecimalNumberMatcher._validateWithTwoParams
    simp only [StateT.run_bind, StateT.run_get, pure_bind, StateT.run_pure]
    rfl
  | _ + 3 => rfl

/-- On an instance, `match` returns the outcome it returns as a function of
the stored parameters, and leaves the instance as it was. -/
theorem Stateful.matchValue_run {D : Type} (F : DecimalFacility D)
    (self : DecimalNumberMatcher) (value : Value) :
    (Stateful.matchValue F value).run self =
      (self.matchValue F value).map (fun r => (r, self)) := by
  cases hv : value.truthy with
  | false =>
    rw [matchValue_of_falsy self F value hv]
    unfold Stateful.matchValue
    simp only [hv]
    rfl
  | true =>
    cases hx : F.construct value with
    | error e =>
      rw [matchValue_of_error self F value e hv hx]
      unfold Stateful.matchValue
      simp only [hv, if_true, StateT.run_bind, Stateful.validateDecimalNumber_run,
        validateDecimalNumber_of_error self F value _ e hx]
      rfl
    | ok x =>
      rw [matchValue_of_ok self F value x hv hx]
      unfold Stateful.matchValue
      simp only [hv, if_true, StateT.run_bind, Stateful.validateDecimalNumber_run,
        validateDecimalNumber_of_ok self F value _ x hx]
      exact Stateful.performValidation_run F self self.params.length x value _

/-- A run of calls on an instance returns, in order, the outcome `match` gives
for each value on its own, and leaves the instance as it was. -/
theorem Stateful.callSequence_run {D : Type} (F : DecimalFacility D)
    (self : DecimalNumberMatcher) (out : Value → ValidationResult)
    (hout : ∀ v, self.matchValue F v = .ok (out v)) (values : List Value) :
    (Stateful.callSequence F values).run self = .ok (values.map out, self) := by
  induction values with
  | nil => rfl
  | cons v vs ih =>
    unfold Stateful.callSequence
    simp only [StateT.run_bind, Stateful.matchValue_run, hout v]
    show ((Stateful.callSequence F vs).run self >>= fun p =>
      (pure (out v :: p.1) : Stateful.Method _).run p.2) = _
    rw [ih]
    rfl

/-- C14: `match` is deterministic and does not depend on earlier calls.  The
methods are run on an instance that they can read and write.  For every
decimal facility, every instance and every value, a call of `match` returns an
outcome `r`, the one `match` gives as a function of the stored parameters and
the value, and leaves the instance, hence its stored parameter list, as it
was; and in any run of calls on the instance in which the value is passed
twice, with any calls before and in between, both calls return that same
outcome `r` (same errors, same order) and the instance is unchanged after the
last call. -/
theorem match_is_repeatable {D : Type} (F : DecimalFacility D) (self : DecimalNumberMatcher)
    (value : Value) (before between : List Value) :
    ∃ r rs1 rs2, self.matchValue F value = .ok r ∧
      (Stateful.matchValue F value).run self = .ok (r, self) ∧
      (Stateful.callSequence F (before ++ value :: (between ++ [value]))).run self =
        .ok (rs1 ++ r :: (rs2 ++ [r]), self) ∧
      rs1.length = before.length ∧ rs2.length = between.length := by
  choose out hout using matchValue_returns F self
  refine ⟨out value, before.map out, between.map out, hout value, ?_, ?_, by simp, by simp⟩
  · rw [Stateful.matchValue_run, hout value]
    rfl
  · rw [Stateful.callSequence_run F self out hout]
    simp

/-- C15: for every decimal facility, every matcher configuration and every
value, the outcome of `match` is one of the five lists `[]`, `[e001]`,
`[e002]`, `[e003]`, `[e002, e003]`.  So it has at most two errors, no code
occurs twice, and the e003 error occurs only for a matcher with exactly two
parameters.  Each of the five lists is the outcome of some call under
decimal.js. -/
theorem match_outcome_shapes :
    (∀ (D : Type) (F : DecimalFacility D) (self : DecimalNumberMatcher) (value : Value),
      ∃ r, self.matchValue F value = .ok r ∧
        r.errors ∈ [[], [Errors.invalidDecimal], [Errors.maxDigits], [Errors.maxPlaces],
          [Errors.maxDigits, Errors.maxPlaces]] ∧
        r.errors.length ≤ 2 ∧
        (r.errors.map ValidationError.code).Nodup ∧
        (Errors.maxPlaces ∉ r.errors ∨ self.params.length = 2)) ∧
    matchValue (constructor [5, 2]) DecimalJs.facility (.string "123.45") = .ok ⟨[]⟩ ∧
    matchValue (constructor [5, 2]) DecimalJs.facility (.string "abc") =
      .ok ⟨[Errors.invalidDecimal]⟩ ∧
    matchValue (constructor [5, 2]) DecimalJs.facility (.string "123456.78") =
      .ok ⟨[Errors.maxDigits]⟩ ∧
    matchValue (constructor [5, 2]) DecimalJs.facility (.string "12.345") =
      .ok ⟨[Errors.maxPlaces]⟩ ∧
    matchValue (constructor [5, 2]) DecimalJs.facility (.string "123456.789") =
      .ok ⟨[Errors.maxDigits, Errors.maxPlaces]⟩ := by
  refine ⟨?_, rfl, rfl, rfl, rfl, rfl⟩
  intro D F self value
  cases hv : value.truthy with
  | false =>
    exact ⟨_, matchValue_of_falsy self F _ hv, by simp, by simp, by simp, Or.inl (by simp)⟩
  | true =>
    cases hx : F.construct value with
    | error e =>
      exact ⟨_, matchValue_of_error self F _ e hv hx, by simp, by simp, by simp,
        Or.inl (by decide)⟩
    | ok x =>
      rcases matchValue_of_ok_cases F self value x hv hx with
        ⟨_, h⟩ | ⟨p0, _, h⟩ | ⟨p0, p1, hp, h⟩ | ⟨_, h⟩
      · refine ⟨_, h, ?_⟩
        by_cases h0 : jsGreater (F.precision x true) (some 11) = true
        · simp only [h0, if_true]; exact ⟨by simp, by simp, by simp, Or.inl (by decide)⟩
        · simp only [h0]; exact ⟨by simp, by simp, by simp, Or.inl (by simp)⟩
      · refine ⟨_, h, ?_⟩
        by_cases h0 : jsGreater (F.precision x true) (some p0) = true
        · simp only [h0, if_true]; exact ⟨by simp, by simp, by simp, Or.inl (by decide)⟩
        · simp only [h0]; exact ⟨by simp, by simp, by simp, Or.inl (by simp)⟩
      · refine ⟨_, h, ?_⟩
        have hl : self.params.length = 2 := by rw [hp]; rfl
        by_cases h0 : jsGreater (F.precision x true) (some p0) = true <;>
          by_cases h1 : jsGreater (F.decimalPlaces x) (some p1) = true <;>
          simp only [h0, h1, if_true] <;>
          exact ⟨by simp, by simp, by decide, Or.inr hl⟩
      · exact ⟨_, h, by simp, by simp, by simp, Or.inl (by simp)⟩

/-- A digit count above a limit is above every smaller limit. -/
theorem jsGreater_of_le (n : Option Nat) (a b : Int) (hab : a ≤ b)
    (h : jsGreater n (some b) = true) : jsGreater n (some a) = true := by
  cases n with
  | none => simp [jsGreater] at h
  | some d =>
    rw [jsGreater_some] at h ⊢
    simp only [decide_eq_true_eq] at h ⊢
    omega

/-- C16: loosening the limits never adds an error.  For every decimal facility
and every value, with two parameters `a ≤ a'` and `b ≤ b'` the errors of the
(a', b') matcher form a sublist of the errors of the (a, b) matcher, and with
one parameter `n ≤ n'` the errors of the n' matcher form a sublist of those of
the n matcher; so a value valid under the tighter limits is valid under the
looser ones. -/
theorem match_loosening_limits {D : Type} (F : DecimalFacility D) (value : Value) :
    (∀ a b a' b' : Int, a ≤ a' → b ≤ b' →
      ∃ r r', matchValue (constructor [a, b]) F value = .ok r ∧
        matchValue (constructor [a', b']) F value = .ok r' ∧
        r'.errors.Sublist r.errors ∧ (r.isValid = true → r'.isValid = true)) ∧
    (∀ n n' : Int, n ≤ n' →
      ∃ r r', matchValue (constructor [n]) F value = .ok r ∧
        matchValue (constructor [n']) F value = .ok r' ∧
        r'.errors.Sublist r.errors ∧ (r.isValid = true → r'.isValid = true)) := by
  have valid_of_sublist : ∀ r r' : ValidationResult, r'.errors.Sublist r.errors →
      r.isValid = true → r'.isValid = true := by
    intro r r' hs hr
    simp only [ValidationResult.isValid, List.isEmpty_iff] at hr ⊢
    rw [hr] at hs
    exact List.sublist_nil.mp hs
  cases hv : value.truthy with
  | false =>
    constructor
    · intro a b a' b' _ _
      exact ⟨_, _, matchValue_of_falsy _ F _ hv, matchValue_of_falsy _ F _ hv,
        List.Sublist.refl _, id⟩
    · intro n n' _
      exact ⟨_, _, matchValue_of_falsy _ F _ hv, matchValue_of_falsy _ F _ hv,
        List.Sublist.refl _, id⟩
  | true =>
    cases hx : F.construct value with
    | error e =>
      constructor
      · intro a b a' b' _ _
        exact ⟨_, _, matchValue_of_error _ F _ e hv hx, matchValue_of_error _ F _ e hv hx,
          List.Sublist.refl _, id⟩
      · intro n n' _
        exact ⟨_, _, matchValue_of_error _ F _ e hv hx, matchValue_of_error _ F _ e hv hx,
          List.Sublist.refl _, id⟩
    | ok x =>
      constructor
      · intro a b a' b' ha hb
        have h : matchValue (constructor [a, b]) F value = _ :=
          (matchValue_of_ok _ F value x hv hx).trans
            (validateWithTwoParams_fresh F a b x (F.precision x true) value)
        have h' : matchValue (constructor [a', b']) F value = _ :=
          (matchValue_of_ok _ F value x hv hx).trans
            (validateWithTwoParams_fresh F a' b' x (F.precision x true) value)
        have hs : List.Sublist
            ((if jsGreater (F.precision x true) (some a') then [Errors.maxDigits] else []) ++
              (if jsGreater (F.decimalPlaces x) (some b') then [Errors.maxPlaces] else []))
            ((if jsGreater (F.precision x true) (some a) then [Errors.maxDigits] else []) ++
              (if jsGreater (F.decimalPlaces x) (some b) then [Errors.maxPlaces] else [])) := by
          apply List.Sublist.append
          · by_cases h1 : jsGreater (F.precision x true) (some a') = true
            · simp [h1, jsGreater_of_le _ a a' ha h1]
            · simp [h1]
          · by_cases h1 : jsGreater (F.decimalPlaces x) (some b') = true
            · simp [h1, jsGreater_of_le _ b b' hb h1]
            · simp [h1]
        exact ⟨_, _, h, h', hs, valid_of_sublist _ _ hs⟩
      · intro n n' hn
        have h : matchValue (constructor [n]) F value = _ :=
          (matchValue_of_ok _ F value x hv hx).trans
            (validateWithOneParam_fresh n (F.precision x true) value)
        have h' : matchValue (constructor [n']) F value = _ :=
          (matchValue_of_ok _ F value x hv hx).trans
            (validateWithOneParam_fresh n' (F.precision x true) value)
        have hs : List.Sublist
            (if jsGreater (F.precision x true) (some n') then [Errors.maxDigits] else [])
            (if jsGreater (F.precision x true) (some n) then [Errors.maxDigits] else []) := by
          by_cases h1 : jsGreater (F.precision x true) (some n') = true
          · simp [h1, jsGreater_of_le _ n n' hn h1]
          · simp [h1]
        exact ⟨_, _, h, h', hs, valid_of_sublist _ _ hs⟩

/-- Witness of C16: under decimal.js, on "123456.789" the matcher (5, 2)
returns e002 and e003, and the looser matcher (9, 2) returns e003 alone, a
sublist. -/
theorem match_loosening_limits_witness :
    (5 : Int) ≤ 9 ∧ (2 : Int) ≤ 2 ∧
    ∃ r r', matchValue (constructor [5, 2]) DecimalJs.facility (.string "123456.789") = .ok r ∧
      matchValue (constructor [9, 2]) DecimalJs.facility (.string "123456.789") = .ok r' ∧
      r'.errors.Sublist r.errors ∧ (r.isValid = true → r'.isValid = true) :=
  ⟨by decide, by decide,
   (match_loosening_limits DecimalJs.facility (.string "123456.789")).1 5 2 9 2
     (by decide) (by decide)⟩
